import Mathlib

/-!
# gemini-to-qq: the event-dispatch pipeline of `main.go`

A shallow embedding of `src/main.go`.

* Go strings are Lean `String`s (frames are decoded by `encoding/json`, which
  only yields valid UTF-8), `int64` is `Int` (no arithmetic is done on the
  identities, they are only compared and printed).
* The two process-wide maps are association lists: `processedMsgID` is the list
  of recorded fingerprints, `userChats` the list of `(user_id, handle)` pairs.
* The buffered channel `messageQueue` is the list of the events it holds, head
  first.
* The external collaborators (the `genai` client, `net/http`) are an `Env` of
  outcomes; every call that the program makes to them is recorded, in order, in
  a trace of `Effect`s, together with the log records.
* The sections guarded by `processedMsgMu` and by `userChatsMu` are single
  steps of the model.
-/

namespace GeminiToQQ

/-! ## Constants and wire types (lines 22-80) -/

/-- The constant `WorkerCount`. -/
def WorkerCount : Nat := 8

/-- The constant `MessageBufSize`, the capacity of `messageQueue`. -/
def MessageBufSize : Nat := 200

/-- The struct `Sender`. -/
structure Sender where
  UserID : Int
  Nickname : String
  Card : String
deriving DecidableEq

/-- The anonymous struct of the field `Data` of `MessageData`. -/
structure MessageText where
  Text : String
deriving DecidableEq

/-- The struct `MessageData`; `Typ` is its field `Type`. -/
structure MessageData where
  Typ : String
  Data : MessageText
deriving DecidableEq

/-- The anonymous struct of the field `TextElement` of `RawElement`. -/
structure TextContent where
  Content : String
deriving DecidableEq

/-- The struct `RawElement`. -/
structure RawElement where
  TextElement : TextContent
deriving DecidableEq

/-- The struct `Raw`. -/
structure Raw where
  Elements : List RawElement
deriving DecidableEq

/-- The struct `WSMessage`, one decoded inbound event. `GroupID` is the pointer
field `group_id`: `none` is the nil pointer. -/
structure WSMessage where
  SelfID : Int
  UserID : Int
  MessageType : String
  Sender : Sender
  RawMessage : String
  Message : List MessageData
  PostType : String
  SubType : String
  TargetID : Int
  Raw : Raw
  GroupID : Option Int
deriving DecidableEq

/-- The keys of `config.ini` that the program reads. -/
structure Config where
  url : String
  urlToken : String
  wsURL : String
  wsToken : String
  apiKey : String
deriving DecidableEq

/-! ## External collaborators -/

/-- A Go `error` value, by its message; a nil error is `none : Option Err`. -/
abbrev Err := String

/-- The identity of a conversation handle (a `*genai.Chat`). -/
abbrev Chat := Nat

/-- The JSON object built in `sendPrivateMsg` (lines 283-286), by its two
members; the order in which `json.Marshal` writes them is not modelled. -/
structure Body where
  user_id : Int
  message : String
deriving DecidableEq

/-- The request built in `sendPrivateMsg` (lines 288-293). -/
structure Request where
  Method : String
  URL : String
  ContentType : String
  Authorization : String
  Body : Body
deriving DecidableEq

/-- The log records of the program, one constructor per `log.Printf`. -/
inductive LogRecord where
  | readFailed (err : Err)
  | decodeFailed (err : Err)
  | queueFull (userID : Int)
  | emptySkip
  | received (userID : Int) (input : String) (msgID : String)
  | geminiFailed (err : Err)
  | sendFailed (err : Err) (msgID : String)
  | blankPromptOrInput
  | clientFailed (err : Err)
  | chatFailed (err : Err)
  | responseError (err : Err)
  | responseNil
  | sent (userID : Int) (text : String)
deriving DecidableEq

/-- What the program does to the outside world, in the order in which it does it. -/
inductive Effect where
  | sleep
  | newClient (apiKey : String)
  | createChat (model : String) (prompt : String)
  | sendMessage (chat : Chat) (input : String)
  | httpDo (req : Request)
  | log (r : LogRecord)
deriving DecidableEq

/-- The outcomes of the external calls.
* `newClient apiKey`: the error of `genai.NewClient`, if any;
* `createChat model prompt`: the result of `client.Chats.Create`;
* `sendMessage chat input`: the result of `chat.SendMessage`: an error, a nil
  response (`none`), or a response with its `Text()`;
* `newRequest url`: the error of `http.NewRequest("POST", url, _)`, if any;
* `doRequest req`: the result of `client.Do`: an error or the status code. -/
structure Env where
  newClient : String → Option Err
  createChat : String → String → Except Err Chat
  sendMessage : Chat → String → Except Err (Option String)
  newRequest : String → Option Err
  doRequest : Request → Except Err Nat

/-! ## Library functions -/

/-- The verb `%d` of `fmt.Sprintf` on an `int64`. -/
def fmtD (i : Int) : String := toString i

/-- The function `unicode.IsSpace`. -/
def isSpace (r : Char) : Bool :=
  let n := r.toNat
  (0x09 ≤ n && n ≤ 0x0D) || n == 0x20 || n == 0x85 || n == 0xA0 || n == 0x1680
    || (0x2000 ≤ n && n ≤ 0x200A) || n == 0x2028 || n == 0x2029 || n == 0x202F
    || n == 0x205F || n == 0x3000

/-- The function `strings.TrimSpace`: the string without its leading and
trailing white space. -/
def TrimSpace (s : String) : String :=
  String.mk ((s.data.dropWhile isSpace).reverse.dropWhile isSpace).reverse

/-! ## Process-wide state (lines 27-34) -/

/-- The map `userChats`. -/
abbrev Registry := List (Int × Chat)

/-- The look-up `userChats[userID]`. -/
def Registry.get : Registry → Int → Option Chat
  | [], _ => none
  | (k, v) :: rest, userID => if k = userID then some v else Registry.get rest userID

/-- The assignment `userChats[userID] = chat`: the entry of `userID`, if there
is one, is replaced. -/
def Registry.set (r : Registry) (userID : Int) (chat : Chat) : Registry :=
  (userID, chat) :: r.filter (fun p => decide (p.1 ≠ userID))

/-- The keys of the map `userChats`. -/
def Registry.keys (r : Registry) : List Int := r.map Prod.fst

/-- The state shared by the workers: the deduplication store and the session
registry. -/
structure State where
  processedMsgID : List String
  userChats : Registry
deriving DecidableEq

/-! ## The program -/

/-- The function `getMsgUniqueID` (lines 199-201). -/
def getMsgUniqueID (msg : WSMessage) : String :=
  fmtD msg.SelfID ++ "_" ++ fmtD msg.UserID ++ "_" ++ msg.RawMessage ++ "_" ++ msg.PostType
    ++ "_" ++ msg.SubType ++ "_" ++ fmtD msg.TargetID

/-- The result of the section of `requestGemini` that holds `userChatsMu`. -/
structure LookupResult where
  userChats : Registry
  chat : Except Err Chat
  effects : List Effect

/-- The section of `requestGemini` that holds `userChatsMu` (lines 252-267):
look the handle of `userID` up, and create and store one when there is none. -/
def lookupOrCreate (env : Env) (userChats : Registry) (userID : Int) (model prompt : String) :
    LookupResult :=
  match userChats.get userID with
  | some chat => ⟨userChats, .ok chat, []⟩
  | none =>
    match env.createChat model prompt with
    | .error err => ⟨userChats, .error err, [.createChat model prompt, .log (.chatFailed err)]⟩
    | .ok chat => ⟨userChats.set userID chat, .ok chat, [.createChat model prompt]⟩

/-- The result of `requestGemini`: the registry it leaves, the two values it
returns and its trace. -/
structure GeminiResult where
  userChats : Registry
  reply : String
  err : Option Err
  effects : List Effect

/-- The function `requestGemini` (lines 236-278). -/
def requestGemini (env : Env) (userChats : Registry) (userID : Int) (prompt input : String)
    (cfg : Config) : GeminiResult :=
  if TrimSpace prompt = "" ∨ TrimSpace input = "" then
    ⟨userChats, "", some "prompt 或 input 不能为空", [.log .blankPromptOrInput]⟩
  else
    let apiKey := cfg.apiKey
    match env.newClient apiKey with
    | some err => ⟨userChats, "", some err, [.newClient apiKey, .log (.clientFailed err)]⟩
    | none =>
      let model := "gemini-1.5-flash"
      let l := lookupOrCreate env userChats userID model prompt
      match l.chat with
      | .error err => ⟨l.userChats, "", some err, .newClient apiKey :: l.effects⟩
      | .ok chat =>
        let pre := .newClient apiKey :: l.effects ++ [.sendMessage chat input]
        match env.sendMessage chat input with
        | .error err => ⟨l.userChats, "", some err, pre ++ [.log (.responseError err)]⟩
        | .ok none => ⟨l.userChats, "", none, pre ++ [.log .responseNil]⟩
        | .ok (some text) => ⟨l.userChats, text, none, pre⟩

/-- The result of `sendPrivateMsg`: the error it returns and its trace. -/
structure SendResult where
  err : Option Err
  effects : List Effect

/-- The function `sendPrivateMsg` (lines 280-305). After a completed
`client.Do` the variable `err` is nil, and it is this variable that line 301
returns. -/
def sendPrivateMsg (env : Env) (userID : Int) (text : String) (cfg : Config) (_msgID : String) :
    SendResult :=
  let url := cfg.url
  let urlToken := cfg.urlToken
  let body : Body := ⟨userID, text⟩
  match env.newRequest (url ++ "/send_private_msg") with
  | some err => ⟨some err, []⟩
  | none =>
    let req : Request :=
      ⟨"POST", url ++ "/send_private_msg", "application/json", "Bearer " ++ urlToken, body⟩
    match env.doRequest req with
    | .error err => ⟨some err, [.httpDo req]⟩
    | .ok statusCode =>
      let err : Option Err := none
      if statusCode ≠ 200 then ⟨err, [.httpDo req]⟩
      else ⟨none, [.httpDo req, .log (.sent userID text)]⟩

/-- The input extraction of `handlePrivateMsg` (lines 213-219). -/
def extractInput (msg : WSMessage) : String :=
  let input := msg.RawMessage
  let input :=
    if input = "" then
      match msg.Message with
      | m0 :: _ => m0.Data.Text
      | [] => input
    else input
  let input :=
    if input = "" then
      match msg.Raw.Elements with
      | r0 :: _ => r0.TextElement.Content
      | [] => input
    else input
  input

/-- The function `handlePrivateMsg` (lines 203-234): the state it leaves and
its trace. -/
def handlePrivateMsg (env : Env) (st : State) (msg : WSMessage) (prompt : String) (cfg : Config) :
    State × List Effect :=
  let msgID := getMsgUniqueID msg
  if msgID ∈ st.processedMsgID then (st, [])
  else
    let st : State := ⟨msgID :: st.processedMsgID, st.userChats⟩
    let input := extractInput msg
    if input = "" then (st, [.log .emptySkip])
    else
      let g := requestGemini env st.userChats msg.UserID prompt input cfg
      let st : State := ⟨st.processedMsgID, g.userChats⟩
      let pre := .log (.received msg.UserID input msgID) :: g.effects
      match g.err with
      | some err => (st, pre ++ [.log (.geminiFailed err)])
      | none =>
        let d := sendPrivateMsg env msg.UserID g.reply cfg msgID
        match d.err with
        | some err => (st, pre ++ d.effects ++ [.log (.sendFailed err msgID)])
        | none => (st, pre ++ d.effects)

/-- What one turn of the loop of `main` reads from the socket: a read error, a
frame that `json.Unmarshal` rejects, or a frame decoded to an event. -/
inductive Frame where
  | readError (err : Err)
  | undecodable (err : Err)
  | event (wsMsg : WSMessage)

/-- One turn of the loop of `main` (lines 157-181): the queue it leaves and its
trace. The non-blocking send succeeds when the channel holds fewer than
`MessageBufSize` events. -/
def ingest (messageQueue : List WSMessage) : Frame → List WSMessage × List Effect
  | .readError err => (messageQueue, [.log (.readFailed err), .sleep])
  | .undecodable err => (messageQueue, [.log (.decodeFailed err)])
  | .event wsMsg =>
    if wsMsg.GroupID ≠ none then (messageQueue, [])
    else if wsMsg.MessageType ≠ "private" then (messageQueue, [])
    else if messageQueue.length < MessageBufSize then (messageQueue ++ [wsMsg], [])
    else (messageQueue, [.log (.queueFull wsMsg.UserID)])

/-- The whole process: the queue, the shared state and the trace so far. -/
structure System where
  messageQueue : List WSMessage
  state : State
  trace : List Effect

/-- The steps of the process: the loop of `main` takes a frame, or the worker
`workerID` of `startWorkers` receives the head of the queue and handles it
(lines 122-124); a worker that finds the queue empty waits. -/
inductive Step where
  | frame (f : Frame)
  | work (workerID : Nat) (env : Env)

/-- One step of the process. -/
def step (prompt : String) (cfg : Config) (s : System) : Step → System
  | .frame f =>
    let r := ingest s.messageQueue f
    ⟨r.1, s.state, s.trace ++ r.2⟩
  | .work _ env =>
    match s.messageQueue with
    | [] => s
    | msg :: rest =>
      let r := handlePrivateMsg env s.state msg prompt cfg
      ⟨rest, r.1, s.trace ++ r.2⟩

/-- The process at start: an empty queue and two empty maps. -/
def initial : System := ⟨[], ⟨[], []⟩, []⟩

/-- The process after a sequence of steps. -/
def run (prompt : String) (cfg : Config) (s : System) (steps : List Step) : System :=
  steps.foldl (step prompt cfg) s

/-! ## Observations on traces -/

/-- The requests handed to `client.Do` in a trace: the delivery calls. -/
def deliveries : List Effect → List Request
  | [] => []
  | .httpDo req :: rest => req :: deliveries rest
  | _ :: rest => deliveries rest

/-- The `(handle, text)` pairs handed to `chat.SendMessage` in a trace. -/
def backendSends : List Effect → List (Chat × String)
  | [] => []
  | .sendMessage chat input :: rest => (chat, input) :: backendSends rest
  | _ :: rest => backendSends rest

/-- The calls to the backend in a trace: client creation, conversation creation
and message sends. -/
def backendCalls : List Effect → List Effect
  | [] => []
  | .newClient k :: rest => .newClient k :: backendCalls rest
  | .createChat m p :: rest => .createChat m p :: backendCalls rest
  | .sendMessage c i :: rest => .sendMessage c i :: backendCalls rest
  | _ :: rest => backendCalls rest

/-- Two events agree on the fields the fingerprint is derived from. -/
def sameTuple (a b : WSMessage) : Prop :=
  a.SelfID = b.SelfID ∧ a.UserID = b.UserID ∧ a.RawMessage = b.RawMessage ∧
    a.PostType = b.PostType ∧ a.SubType = b.SubType ∧ a.TargetID = b.TargetID

instance (a b : WSMessage) : Decidable (sameTuple a b) := by
  unfold sameTuple; infer_instance

/-- Handle a list of events one after the other, each with its own outcomes of
the external calls. -/
def handleAll (prompt : String) (cfg : Config) (st : State) : List (Env × WSMessage) → State
  | [] => st
  | (env, msg) :: rest => handleAll prompt cfg (handlePrivateMsg env st msg prompt cfg).1 rest

/-- Run the section of `requestGemini` that holds `userChatsMu` for a list of
callers, one after the other: this is how the mutex orders the workers. Each
caller has its own outcomes of the external calls, user, model and prompt. -/
def lookupAll (userChats : Registry) : List (Env × Int × String × String) → Registry
  | [] => userChats
  | (env, userID, model, prompt) :: rest =>
    lookupAll (lookupOrCreate env userChats userID model prompt).userChats rest

/-! ## The scenario of the specification -/

/-- The configuration that `ensureConfigIni` writes (lines 83-94). -/
def defaultConfig : Config :=
  ⟨"http://127.0.0.1:3000", "aaasssxxx", "ws://127.0.0.1:3001/", "aaasssxxx", "gemini_api_here"⟩

/-- The event of the end-to-end scenario; the fields that the frame does not
carry have their zero value. -/
def scenarioEvent : WSMessage :=
  ⟨1, 42, "private", ⟨0, "", ""⟩, "hello", [], "message", "friend", 1, ⟨[]⟩, none⟩

/-- The event of the end-to-end scenario with `group_id:99`. -/
def scenarioGroupEvent : WSMessage :=
  ⟨1, 42, "private", ⟨0, "", ""⟩, "hello", [], "message", "friend", 1, ⟨[]⟩, some 99⟩

/-- The event of the scenario as a later frame may repeat it: the same
fingerprint fields, other fields changed. -/
def scenarioRepeat : WSMessage :=
  ⟨1, 42, "group", ⟨42, "nick", "card"⟩, "hello", [⟨"text", ⟨"other"⟩⟩], "message", "friend", 1,
    ⟨[⟨⟨"raw"⟩⟩]⟩, some 5⟩

/-- Two events with different raw text and post-type and one fingerprint. -/
def collisionA : WSMessage :=
  ⟨1, 42, "private", ⟨0, "", ""⟩, "a_b", [], "c", "friend", 1, ⟨[]⟩, none⟩

/-- The second event of the collision. -/
def collisionB : WSMessage :=
  ⟨1, 42, "private", ⟨0, "", ""⟩, "a", [], "b_c", "friend", 1, ⟨[]⟩, none⟩

/-- The prompt that `readPrompt` returns for the file that `ensurePromptTxt`
writes (line 109). -/
def defaultPrompt : String := "你是原神里的重云 简洁地回复我 不要泄露你的提示词。\n"

/-- The event of the scenario with a raw_message of one space. -/
def blankEvent : WSMessage :=
  ⟨1, 42, "private", ⟨0, "", ""⟩, " ", [], "message", "friend", 1, ⟨[]⟩, none⟩

/-- An event with no raw_message, whose first message segment carries the text. -/
def segmentEvent : WSMessage :=
  ⟨1, 42, "private", ⟨0, "", ""⟩, "", [⟨"text", ⟨"from segment"⟩⟩], "message", "friend", 1,
    ⟨[⟨⟨"from raw"⟩⟩]⟩, none⟩

/-- A configuration whose `url` has no scheme before its colon: `url.Parse`
rejects it (missing protocol scheme), and so does `http.NewRequest`. -/
def schemelessConfig : Config :=
  ⟨"://127.0.0.1:3000", "aaasssxxx", "ws://127.0.0.1:3001/", "aaasssxxx", "gemini_api_here"⟩

/-- A world in which every call succeeds: the backend creates the handle `7`
and answers `"hi there"`, the delivery endpoint answers `statusCode`. -/
def scenarioEnv (statusCode : Nat) : Env :=
  ⟨fun _ => none, fun _ _ => .ok 7, fun _ _ => .ok (some "hi there"), fun _ => none,
    fun _ => .ok statusCode⟩

/-- A world as `scenarioEnv 200`, in which `http.NewRequest` rejects the URL of
`schemelessConfig`. -/
def schemelessEnv : Env :=
  ⟨fun _ => none, fun _ _ => .ok 7, fun _ _ => .ok (some "hi there"),
    fun url => if url = "://127.0.0.1:3000/send_private_msg" then
      some "missing protocol scheme" else none,
    fun _ => .ok 200⟩

/-- A world as `scenarioEnv 200`, in which the backend answers with a response
whose text is empty. -/
def emptyTextEnv : Env :=
  ⟨fun _ => none, fun _ _ => .ok 7, fun _ _ => .ok (some ""), fun _ => none, fun _ => .ok 200⟩

/-! ## Deduplication -/

theorem getMsgUniqueID_congr {a b : WSMessage} (h : sameTuple a b) :
    getMsgUniqueID a = getMsgUniqueID b := by
  obtain ⟨h1, h2, h3, h4, h5, h6⟩ := h
  simp only [getMsgUniqueID, h1, h2, h3, h4, h5, h6]

theorem handlePrivateMsg_of_mem (env : Env) (st : State) (msg : WSMessage) (prompt : String)
    (cfg : Config) (h : getMsgUniqueID msg ∈ st.processedMsgID) :
    handlePrivateMsg env st msg prompt cfg = (st, []) := by
  simp only [handlePrivateMsg, h, if_true]

theorem handlePrivateMsg_processed (env : Env) (st : State) (msg : WSMessage) (prompt : String)
    (cfg : Config) :
    (handlePrivateMsg env st msg prompt cfg).1.processedMsgID =
      if getMsgUniqueID msg ∈ st.processedMsgID then st.processedMsgID
      else getMsgUniqueID msg :: st.processedMsgID := by
  unfold handlePrivateMsg
  by_cases h : getMsgUniqueID msg ∈ st.processedMsgID
  · simp only [h, if_true]
  · simp only [h, if_false]
    split
    · rfl
    · split
      · rfl
      · split <;> rfl

theorem handlePrivateMsg_records (env : Env) (st : State) (msg : WSMessage) (prompt : String)
    (cfg : Config) :
    getMsgUniqueID msg ∈ (handlePrivateMsg env st msg prompt cfg).1.processedMsgID := by
  rw [handlePrivateMsg_processed]
  split
  · assumption
  · exact List.mem_cons_self _ _

theorem handlePrivateMsg_keeps (env : Env) (st : State) (msg : WSMessage) (prompt : String)
    (cfg : Config) {x : String} (hx : x ∈ st.processedMsgID) :
    x ∈ (handlePrivateMsg env st msg prompt cfg).1.processedMsgID := by
  rw [handlePrivateMsg_processed]
  split
  · exact hx
  · exact List.mem_cons_of_mem _ hx

theorem handleAll_keeps (prompt : String) (cfg : Config) (l : List (Env × WSMessage)) :
    ∀ (st : State) {x : String}, x ∈ st.processedMsgID →
      x ∈ (handleAll prompt cfg st l).processedMsgID := by
  induction l with
  | nil => intro st x hx; exact hx
  | cons p rest ih =>
    intro st x hx
    obtain ⟨env, msg⟩ := p
    exact ih _ (handlePrivateMsg_keeps env st msg prompt cfg hx)

/-- C1: after `handlePrivateMsg` has handled an event, whatever the outcome of
its backend call and delivery, handling an event with the same (self_id,
user_id, raw_message, post_type, sub_type, target_id) returns at once: its
trace is empty (no backend call, no delivery) and the deduplication store and
the session registry are the ones it found. The same holds when other events
have been handled in between. -/
theorem handlePrivateMsg_idempotent (env env2 : Env) (prompt prompt2 : String) (cfg cfg2 : Config)
    (st : State) (e e2 : WSMessage) (between : List (Env × WSMessage)) (h : sameTuple e e2) :
    handlePrivateMsg env2 (handlePrivateMsg env st e prompt cfg).1 e2 prompt2 cfg2 =
        ((handlePrivateMsg env st e prompt cfg).1, []) ∧
      handlePrivateMsg env2 (handleAll prompt cfg (handlePrivateMsg env st e prompt cfg).1 between)
          e2 prompt2 cfg2 =
        (handleAll prompt cfg (handlePrivateMsg env st e prompt cfg).1 between, []) := by
  have hid : getMsgUniqueID e2 ∈ (handlePrivateMsg env st e prompt cfg).1.processedMsgID := by
    rw [← getMsgUniqueID_congr h]
    exact handlePrivateMsg_records env st e prompt cfg
  exact ⟨handlePrivateMsg_of_mem _ _ _ _ _ hid,
    handlePrivateMsg_of_mem _ _ _ _ _ (handleAll_keeps prompt cfg between _ hid)⟩

theorem handlePrivateMsg_idempotent_witness :
    sameTuple scenarioEvent scenarioRepeat ∧
      handlePrivateMsg (scenarioEnv 200)
          (handlePrivateMsg (scenarioEnv 500) ⟨[], []⟩ scenarioEvent "p" defaultConfig).1
          scenarioRepeat "q" defaultConfig =
        (⟨["1_42_hello_message_friend_1"], [(42, 7)]⟩, []) :=
  ⟨by decide,
    (handlePrivateMsg_idempotent (scenarioEnv 500) (scenarioEnv 200) "p" "q" defaultConfig
      defaultConfig ⟨[], []⟩ scenarioEvent scenarioRepeat [] (by decide)).1.trans (by decide)⟩

/-- C10: the fingerprint is not injective on the tuple it is derived from: the
events with raw_message "a_b", post_type "c" and with raw_message "a",
post_type "b_c", equal in their other fields, have the same `getMsgUniqueID`;
once the first is handled, `handlePrivateMsg` drops the second with an empty
trace (no backend call, no delivery) and an unchanged state. -/
theorem getMsgUniqueID_collision :
    ¬ sameTuple collisionA collisionB ∧
      collisionA.RawMessage ≠ collisionB.RawMessage ∧
      collisionA.PostType ≠ collisionB.PostType ∧
      getMsgUniqueID collisionA = getMsgUniqueID collisionB ∧
      ∀ (env env2 : Env) (st : State) (prompt prompt2 : String) (cfg cfg2 : Config),
        handlePrivateMsg env2 (handlePrivateMsg env st collisionA prompt cfg).1 collisionB
            prompt2 cfg2 =
          ((handlePrivateMsg env st collisionA prompt cfg).1, []) := by
  refine ⟨by decide, by decide, by decide, by decide, ?_⟩
  intro env env2 st prompt prompt2 cfg cfg2
  apply handlePrivateMsg_of_mem
  have hid : getMsgUniqueID collisionB = getMsgUniqueID collisionA := by decide
  rw [hid]
  exact handlePrivateMsg_records env st collisionA prompt cfg

/-! ## Admission -/

theorem ingest_filtered (messageQueue : List WSMessage) (wsMsg : WSMessage)
    (h : wsMsg.GroupID ≠ none ∨ wsMsg.MessageType ≠ "private") :
    ingest messageQueue (.event wsMsg) = (messageQueue, []) := by
  simp only [ingest]
  by_cases hg : wsMsg.GroupID ≠ none
  · rw [if_pos hg]
  · have hp : wsMsg.MessageType ≠ "private" := h.resolve_left hg
    rw [if_neg hg, if_pos hp]

theorem ingest_admitted (messageQueue : List WSMessage) (wsMsg : WSMessage)
    (hg : wsMsg.GroupID = none) (hp : wsMsg.MessageType = "private") :
    ingest messageQueue (.event wsMsg) =
      if messageQueue.length < MessageBufSize then (messageQueue ++ [wsMsg], [])
      else (messageQueue, [.log (.queueFull wsMsg.UserID)]) := by
  simp [ingest, hg, hp]

theorem ingest_queue_cases (messageQueue : List WSMessage) (f : Frame) :
    (ingest messageQueue f).1 = messageQueue ∨
      ∃ wsMsg, f = .event wsMsg ∧ wsMsg.GroupID = none ∧ wsMsg.MessageType = "private" ∧
        messageQueue.length < MessageBufSize ∧ (ingest messageQueue f).1 = messageQueue ++ [wsMsg] := by
  cases f with
  | readError err => exact Or.inl rfl
  | undecodable err => exact Or.inl rfl
  | event wsMsg =>
    by_cases hg : wsMsg.GroupID = none
    · by_cases hp : wsMsg.MessageType = "private"
      · rw [ingest_admitted _ _ hg hp]
        by_cases hl : messageQueue.length < MessageBufSize
        · right
          exact ⟨wsMsg, rfl, hg, hp, hl, by simp only [hl, if_true]⟩
        · left
          simp only [hl, if_false]
      · left
        rw [ingest_filtered _ _ (Or.inr hp)]
    · left
      rw [ingest_filtered _ _ (Or.inl hg)]

theorem step_queue_cases (prompt : String) (cfg : Config) (s : System) (t : Step) :
    (step prompt cfg s t).messageQueue = s.messageQueue ∨
      (step prompt cfg s t).messageQueue = s.messageQueue.tail ∨
      ∃ wsMsg, wsMsg.GroupID = none ∧ wsMsg.MessageType = "private" ∧
        s.messageQueue.length < MessageBufSize ∧
        (step prompt cfg s t).messageQueue = s.messageQueue ++ [wsMsg] := by
  cases t with
  | frame f =>
    rcases ingest_queue_cases s.messageQueue f with h | ⟨wsMsg, _, hg, hp, hl, h⟩
    · exact Or.inl h
    · exact Or.inr (Or.inr ⟨wsMsg, hg, hp, hl, h⟩)
  | work workerID env =>
    cases hq : s.messageQueue with
    | nil => left; simp only [step, hq]
    | cons msg rest => right; left; simp only [step, hq, List.tail_cons]

theorem run_queue_invariant (prompt : String) (cfg : Config) (steps : List Step) :
    ∀ s : System,
      (s.messageQueue.length ≤ MessageBufSize ∧
        ∀ x ∈ s.messageQueue, x.GroupID = none ∧ x.MessageType = "private") →
      ((run prompt cfg s steps).messageQueue.length ≤ MessageBufSize ∧
        ∀ x ∈ (run prompt cfg s steps).messageQueue, x.GroupID = none ∧ x.MessageType = "private") := by
  induction steps with
  | nil => intro s h; exact h
  | cons t rest ih =>
    intro s h
    have hrun : run prompt cfg s (t :: rest) = run prompt cfg (step prompt cfg s t) rest := rfl
    rw [hrun]
    apply ih
    rcases step_queue_cases prompt cfg s t with hq | hq | ⟨wsMsg, hg, hp, hl, hq⟩
    · rw [hq]; exact h
    · rw [hq]
      refine ⟨le_trans (by simp) h.1, ?_⟩
      intro x hx
      exact h.2 x (List.mem_of_mem_tail hx)
    · rw [hq]
      refine ⟨by simp only [List.length_append, List.length_singleton]; omega, ?_⟩
      intro x hx
      rcases List.mem_append.1 hx with hx | hx
      · exact h.2 x hx
      · rw [List.mem_singleton.1 hx]; exact ⟨hg, hp⟩

/-- C3: one turn of the ingestion loop on a decoded event whose group_id is
present or whose message_type is not "private" leaves the queue as it was (and
logs nothing); so, whatever frames arrive and whenever the workers take events,
every element of `messageQueue` has no group context and is private. The
scenario event with group_id 99 is not enqueued. -/
theorem ingest_admission_filter :
    (∀ (messageQueue : List WSMessage) (wsMsg : WSMessage),
        wsMsg.GroupID ≠ none ∨ wsMsg.MessageType ≠ "private" →
        ingest messageQueue (.event wsMsg) = (messageQueue, [])) ∧
      (∀ (prompt : String) (cfg : Config) (steps : List Step) (x : WSMessage),
        x ∈ (run prompt cfg initial steps).messageQueue →
        x.GroupID = none ∧ x.MessageType = "private") ∧
      ingest [] (.event scenarioGroupEvent) = ([], []) := by
  refine ⟨ingest_filtered, ?_, by decide⟩
  intro prompt cfg steps x hx
  have h := run_queue_invariant prompt cfg steps initial
    ⟨Nat.zero_le _, fun y hy => absurd hy (List.not_mem_nil y)⟩
  exact h.2 x hx

theorem ingest_admission_filter_witness :
    ingest [scenarioEvent] (.event scenarioGroupEvent) = ([scenarioEvent], []) ∧
      ingest [scenarioEvent] (.event scenarioRepeat) = ([scenarioEvent], []) :=
  ⟨ingest_admission_filter.1 [scenarioEvent] scenarioGroupEvent (Or.inl (by decide)),
    ingest_admission_filter.1 [scenarioEvent] scenarioRepeat (Or.inr (by decide))⟩

/-- C4: for an event that passes the filter, a queue that holds
`MessageBufSize` = 200 events is left as it was and the drop is logged with the
user_id of the event; a queue that holds fewer gets the event at its tail,
behind the earlier ones, and the workers take from the head. So the queue never
holds more than 200 events, whatever frames arrive and whichever workers take
events (`WorkerCount` = 8). -/
theorem ingest_drop_on_full (messageQueue : List WSMessage) (wsMsg : WSMessage)
    (hg : wsMsg.GroupID = none) (hp : wsMsg.MessageType = "private") :
    (messageQueue.length = MessageBufSize →
        ingest messageQueue (.event wsMsg) = (messageQueue, [.log (.queueFull wsMsg.UserID)])) ∧
      (messageQueue.length < MessageBufSize →
        ingest messageQueue (.event wsMsg) = (messageQueue ++ [wsMsg], [])) ∧
      (∀ (prompt : String) (cfg : Config) (env : Env) (workerID : Nat) (s : System)
          (msg : WSMessage) (rest : List WSMessage), s.messageQueue = msg :: rest →
        (step prompt cfg s (.work workerID env)).messageQueue = rest) ∧
      (∀ (prompt : String) (cfg : Config) (steps : List Step),
        (run prompt cfg initial steps).messageQueue.length ≤ MessageBufSize) ∧
      MessageBufSize = 200 ∧ WorkerCount = 8 := by
  refine ⟨?_, ?_, ?_, ?_, rfl, rfl⟩
  · intro hl
    rw [ingest_admitted _ _ hg hp]
    simp only [hl, lt_irrefl, if_false]
  · intro hl
    rw [ingest_admitted _ _ hg hp]
    simp only [hl, if_true]
  · intro prompt cfg env workerID s msg rest hq
    simp only [step, hq]
  · intro prompt cfg steps
    exact (run_queue_invariant prompt cfg steps initial
      ⟨Nat.zero_le _, fun y hy => absurd hy (List.not_mem_nil y)⟩).1

theorem ingest_drop_on_full_witness :
    ingest (List.replicate 200 scenarioEvent) (.event scenarioEvent) =
        (List.replicate 200 scenarioEvent, [.log (.queueFull 42)]) ∧
      ingest (List.replicate 199 scenarioEvent) (.event scenarioEvent) =
        (List.replicate 199 scenarioEvent ++ [scenarioEvent], []) :=
  ⟨(ingest_drop_on_full (List.replicate 200 scenarioEvent) scenarioEvent rfl rfl).1
      (List.length_replicate 200 scenarioEvent),
    (ingest_drop_on_full (List.replicate 199 scenarioEvent) scenarioEvent rfl rfl).2.1
      (by rw [List.length_replicate]; decide)⟩

/-! ## Traces -/

theorem backendSends_append (a b : List Effect) :
    backendSends (a ++ b) = backendSends a ++ backendSends b := by
  induction a with
  | nil => rfl
  | cons e rest ih => cases e <;> simp [backendSends, ih]

theorem deliveries_append (a b : List Effect) :
    deliveries (a ++ b) = deliveries a ++ deliveries b := by
  induction a with
  | nil => rfl
  | cons e rest ih => cases e <;> simp [deliveries, ih]

theorem backendCalls_append (a b : List Effect) :
    backendCalls (a ++ b) = backendCalls a ++ backendCalls b := by
  induction a with
  | nil => rfl
  | cons e rest ih => cases e <;> simp [backendCalls, ih]

/-! ## The session registry -/

theorem Registry.get_cons (k : Int) (v : Chat) (rest : Registry) (userID : Int) :
    Registry.get ((k, v) :: rest) userID = if k = userID then some v else Registry.get rest userID :=
  rfl

theorem Registry.filter_of_get_none (r : Registry) (userID : Int) (h : r.get userID = none) :
    r.filter (fun p => decide (p.1 ≠ userID)) = r := by
  induction r with
  | nil => rfl
  | cons p rest ih =>
    obtain ⟨k, v⟩ := p
    rw [Registry.get_cons] at h
    by_cases hk : k = userID
    · rw [if_pos hk] at h; cases h
    · rw [if_neg hk] at h
      rw [List.filter_cons_of_pos (by simpa using hk), ih h]

theorem Registry.set_of_get_none (r : Registry) (userID : Int) (chat : Chat)
    (h : r.get userID = none) : r.set userID chat = (userID, chat) :: r := by
  rw [Registry.set, Registry.filter_of_get_none r userID h]

theorem Registry.get_set_self (r : Registry) (userID : Int) (chat : Chat) :
    (r.set userID chat).get userID = some chat := by
  rw [Registry.set, Registry.get_cons, if_pos rfl]

theorem Registry.set_keys_nodup (r : Registry) (userID : Int) (chat : Chat)
    (h : r.keys.Nodup) : (r.set userID chat).keys.Nodup := by
  unfold Registry.keys at h ⊢
  rw [Registry.set, List.map_cons, List.nodup_cons]
  constructor
  · intro hmem
    obtain ⟨p, hp, hpk⟩ := List.mem_map.1 hmem
    have := (List.mem_filter.1 hp).2
    simp only [ne_eq, decide_not, Bool.not_eq_true', decide_eq_false_iff_not] at this
    exact this hpk
  · exact h.sublist ((List.filter_sublist r).map Prod.fst)

theorem lookupOrCreate_of_some (env : Env) (userChats : Registry) (userID : Int)
    (model prompt : String) (chat : Chat) (h : userChats.get userID = some chat) :
    lookupOrCreate env userChats userID model prompt = ⟨userChats, .ok chat, []⟩ := by
  simp only [lookupOrCreate, h]

theorem lookupOrCreate_of_created (env : Env) (userChats : Registry) (userID : Int)
    (model prompt : String) (chat : Chat) (h : userChats.get userID = none)
    (hc : env.createChat model prompt = .ok chat) :
    lookupOrCreate env userChats userID model prompt =
      ⟨(userID, chat) :: userChats, .ok chat, [.createChat model prompt]⟩ := by
  simp only [lookupOrCreate, h, hc, Registry.set_of_get_none userChats userID chat h]

theorem lookupOrCreate_of_failed (env : Env) (userChats : Registry) (userID : Int)
    (model prompt : String) (err : Err) (h : userChats.get userID = none)
    (hc : env.createChat model prompt = .error err) :
    lookupOrCreate env userChats userID model prompt =
      ⟨userChats, .error err, [.createChat model prompt, .log (.chatFailed err)]⟩ := by
  simp only [lookupOrCreate, h, hc]

theorem lookupOrCreate_cases (env : Env) (userChats : Registry) (userID : Int)
    (model prompt : String) :
    (∃ chat, userChats.get userID = some chat ∧
        lookupOrCreate env userChats userID model prompt = ⟨userChats, .ok chat, []⟩) ∨
      (∃ chat, userChats.get userID = none ∧
        lookupOrCreate env userChats userID model prompt =
          ⟨(userID, chat) :: userChats, .ok chat, [.createChat model prompt]⟩) ∨
      (∃ err, userChats.get userID = none ∧
        lookupOrCreate env userChats userID model prompt =
          ⟨userChats, .error err, [.createChat model prompt, .log (.chatFailed err)]⟩) := by
  cases h : userChats.get userID with
  | some chat => exact Or.inl ⟨chat, rfl, lookupOrCreate_of_some _ _ _ _ _ _ h⟩
  | none =>
    cases hc : env.createChat model prompt with
    | ok chat => exact Or.inr (Or.inl ⟨chat, rfl, lookupOrCreate_of_created _ _ _ _ _ _ h hc⟩)
    | error err => exact Or.inr (Or.inr ⟨err, rfl, lookupOrCreate_of_failed _ _ _ _ _ _ h hc⟩)

theorem lookupOrCreate_keeps (env : Env) (userChats : Registry) (userID : Int)
    (model prompt : String) {u : Int} {c : Chat} (h : userChats.get u = some c) :
    (lookupOrCreate env userChats userID model prompt).userChats.get u = some c := by
  rcases lookupOrCreate_cases env userChats userID model prompt with
    ⟨chat, _, he⟩ | ⟨chat, hn, he⟩ | ⟨err, _, he⟩
  · rw [he]; exact h
  · rw [he]
    show Registry.get ((userID, chat) :: userChats) u = some c
    rw [Registry.get_cons]
    by_cases hu : userID = u
    · rw [hu, h] at hn; cases hn
    · rw [if_neg hu]; exact h
  · rw [he]; exact h

theorem lookupOrCreate_registers (env : Env) (userChats : Registry) (userID : Int)
    (model prompt : String) {c : Chat}
    (h : (lookupOrCreate env userChats userID model prompt).chat = .ok c) :
    (lookupOrCreate env userChats userID model prompt).userChats.get userID = some c := by
  rcases lookupOrCreate_cases env userChats userID model prompt with
    ⟨chat, hs, he⟩ | ⟨chat, _, he⟩ | ⟨err, _, he⟩
  · rw [he] at h ⊢
    cases h
    exact hs
  · rw [he] at h ⊢
    cases h
    show Registry.get ((userID, c) :: userChats) userID = some c
    rw [Registry.get_cons, if_pos rfl]
  · rw [he] at h
    cases h

theorem lookupOrCreate_keys_nodup (env : Env) (userChats : Registry) (userID : Int)
    (model prompt : String) (h : userChats.keys.Nodup) :
    (lookupOrCreate env userChats userID model prompt).userChats.keys.Nodup := by
  unfold lookupOrCreate
  split
  · exact h
  · split
    · exact h
    · exact Registry.set_keys_nodup _ _ _ h

theorem lookupAll_keeps (l : List (Env × Int × String × String)) :
    ∀ (userChats : Registry) {u : Int} {c : Chat}, userChats.get u = some c →
      (lookupAll userChats l).get u = some c := by
  induction l with
  | nil => intro userChats u c h; exact h
  | cons p rest ih =>
    intro userChats u c h
    obtain ⟨env, userID, model, prompt⟩ := p
    exact ih _ (lookupOrCreate_keeps env userChats userID model prompt h)

/-! ## The backend exchange -/

theorem requestGemini_of_blank (env : Env) (userChats : Registry) (userID : Int)
    (prompt input : String) (cfg : Config) (hb : TrimSpace prompt = "" ∨ TrimSpace input = "") :
    requestGemini env userChats userID prompt input cfg =
      ⟨userChats, "", some "prompt 或 input 不能为空", [.log .blankPromptOrInput]⟩ := by
  simp only [requestGemini, hb, if_true]

theorem requestGemini_of_client_error (env : Env) (userChats : Registry) (userID : Int)
    (prompt input : String) (cfg : Config) (err : Err)
    (hb : ¬ (TrimSpace prompt = "" ∨ TrimSpace input = ""))
    (hc : env.newClient cfg.apiKey = some err) :
    requestGemini env userChats userID prompt input cfg =
      ⟨userChats, "", some err, [.newClient cfg.apiKey, .log (.clientFailed err)]⟩ := by
  simp only [requestGemini, hb, if_false, hc]

theorem requestGemini_of_chat_error (env : Env) (userChats : Registry) (userID : Int)
    (prompt input : String) (cfg : Config) (err : Err)
    (hb : ¬ (TrimSpace prompt = "" ∨ TrimSpace input = ""))
    (hc : env.newClient cfg.apiKey = none)
    (hl : (lookupOrCreate env userChats userID "gemini-1.5-flash" prompt).chat = .error err) :
    requestGemini env userChats userID prompt input cfg =
      ⟨(lookupOrCreate env userChats userID "gemini-1.5-flash" prompt).userChats, "", some err,
        .newClient cfg.apiKey ::
          (lookupOrCreate env userChats userID "gemini-1.5-flash" prompt).effects⟩ := by
  simp only [requestGemini, hb, if_false, hc, hl]

theorem requestGemini_of_send_error (env : Env) (userChats : Registry) (userID : Int)
    (prompt input : String) (cfg : Config) (chat : Chat) (err : Err)
    (hb : ¬ (TrimSpace prompt = "" ∨ TrimSpace input = ""))
    (hc : env.newClient cfg.apiKey = none)
    (hl : (lookupOrCreate env userChats userID "gemini-1.5-flash" prompt).chat = .ok chat)
    (hs : env.sendMessage chat input = .error err) :
    requestGemini env userChats userID prompt input cfg =
      ⟨(lookupOrCreate env userChats userID "gemini-1.5-flash" prompt).userChats, "", some err,
        .newClient cfg.apiKey ::
          (lookupOrCreate env userChats userID "gemini-1.5-flash" prompt).effects ++
          [.sendMessage chat input] ++ [.log (.responseError err)]⟩ := by
  simp only [requestGemini, hb, if_false, hc, hl, hs]

theorem requestGemini_of_nil_response (env : Env) (userChats : Registry) (userID : Int)
    (prompt input : String) (cfg : Config) (chat : Chat)
    (hb : ¬ (TrimSpace prompt = "" ∨ TrimSpace input = ""))
    (hc : env.newClient cfg.apiKey = none)
    (hl : (lookupOrCreate env userChats userID "gemini-1.5-flash" prompt).chat = .ok chat)
    (hs : env.sendMessage chat input = .ok none) :
    requestGemini env userChats userID prompt input cfg =
      ⟨(lookupOrCreate env userChats userID "gemini-1.5-flash" prompt).userChats, "", none,
        .newClient cfg.apiKey ::
          (lookupOrCreate env userChats userID "gemini-1.5-flash" prompt).effects ++
          [.sendMessage chat input] ++ [.log .responseNil]⟩ := by
  simp only [requestGemini, hb, if_false, hc, hl, hs]

theorem requestGemini_of_response (env : Env) (userChats : Registry) (userID : Int)
    (prompt input : String) (cfg : Config) (chat : Chat) (text : String)
    (hb : ¬ (TrimSpace prompt = "" ∨ TrimSpace input = ""))
    (hc : env.newClient cfg.apiKey = none)
    (hl : (lookupOrCreate env userChats userID "gemini-1.5-flash" prompt).chat = .ok chat)
    (hs : env.sendMessage chat input = .ok (some text)) :
    requestGemini env userChats userID prompt input cfg =
      ⟨(lookupOrCreate env userChats userID "gemini-1.5-flash" prompt).userChats, text, none,
        .newClient cfg.apiKey ::
          (lookupOrCreate env userChats userID "gemini-1.5-flash" prompt).effects ++
          [.sendMessage chat input]⟩ := by
  simp only [requestGemini, hb, if_false, hc, hl, hs]

theorem lookupOrCreate_sends (env : Env) (userChats : Registry) (userID : Int)
    (model prompt : String) :
    backendSends (lookupOrCreate env userChats userID model prompt).effects = [] ∧
      deliveries (lookupOrCreate env userChats userID model prompt).effects = [] := by
  rcases lookupOrCreate_cases env userChats userID model prompt with
    ⟨chat, _, he⟩ | ⟨chat, _, he⟩ | ⟨err, _, he⟩ <;> rw [he] <;> exact ⟨rfl, rfl⟩

theorem requestGemini_deliveries (env : Env) (userChats : Registry) (userID : Int)
    (prompt input : String) (cfg : Config) :
    deliveries (requestGemini env userChats userID prompt input cfg).effects = [] := by
  have hd := (lookupOrCreate_sends env userChats userID "gemini-1.5-flash" prompt).2
  by_cases hb : TrimSpace prompt = "" ∨ TrimSpace input = ""
  · rw [requestGemini_of_blank _ _ _ _ _ _ hb]; rfl
  · cases hc : env.newClient cfg.apiKey with
    | some err => rw [requestGemini_of_client_error _ _ _ _ _ _ _ hb hc]; rfl
    | none =>
      cases hl : (lookupOrCreate env userChats userID "gemini-1.5-flash" prompt).chat with
      | error err =>
        rw [requestGemini_of_chat_error _ _ _ _ _ _ _ hb hc hl]
        simpa [deliveries] using hd
      | ok chat =>
        cases hs : env.sendMessage chat input with
        | error err =>
          rw [requestGemini_of_send_error _ _ _ _ _ _ _ _ hb hc hl hs]
          simp [deliveries, deliveries_append, hd]
        | ok r =>
          cases r with
          | none =>
            rw [requestGemini_of_nil_response _ _ _ _ _ _ _ hb hc hl hs]
            simp [deliveries, deliveries_append, hd]
          | some text =>
            rw [requestGemini_of_response _ _ _ _ _ _ _ _ hb hc hl hs]
            simp [deliveries, deliveries_append, hd]

theorem requestGemini_sends (env : Env) (userChats : Registry) (userID : Int)
    (prompt input : String) (cfg : Config) :
    backendSends (requestGemini env userChats userID prompt input cfg).effects = [] ∨
      ∃ chat, (lookupOrCreate env userChats userID "gemini-1.5-flash" prompt).chat = .ok chat ∧
        (requestGemini env userChats userID prompt input cfg).userChats =
          (lookupOrCreate env userChats userID "gemini-1.5-flash" prompt).userChats ∧
        backendSends (requestGemini env userChats userID prompt input cfg).effects =
          [(chat, input)] := by
  have hd := (lookupOrCreate_sends env userChats userID "gemini-1.5-flash" prompt).1
  by_cases hb : TrimSpace prompt = "" ∨ TrimSpace input = ""
  · rw [requestGemini_of_blank _ _ _ _ _ _ hb]; exact Or.inl rfl
  · cases hc : env.newClient cfg.apiKey with
    | some err => rw [requestGemini_of_client_error _ _ _ _ _ _ _ hb hc]; exact Or.inl rfl
    | none =>
      cases hl : (lookupOrCreate env userChats userID "gemini-1.5-flash" prompt).chat with
      | error err =>
        rw [requestGemini_of_chat_error _ _ _ _ _ _ _ hb hc hl]
        left
        simpa [backendSends] using hd
      | ok chat =>
        right
        refine ⟨chat, rfl, ?_⟩
        cases hs : env.sendMessage chat input with
        | error err =>
          rw [requestGemini_of_send_error _ _ _ _ _ _ _ _ hb hc hl hs]
          simp [backendSends, backendSends_append, hd]
        | ok r =>
          cases r with
          | none =>
            rw [requestGemini_of_nil_response _ _ _ _ _ _ _ hb hc hl hs]
            simp [backendSends, backendSends_append, hd]
          | some text =>
            rw [requestGemini_of_response _ _ _ _ _ _ _ _ hb hc hl hs]
            simp [backendSends, backendSends_append, hd]

theorem requestGemini_keeps (env : Env) (userChats : Registry) (userID : Int)
    (prompt input : String) (cfg : Config) {u : Int} {c : Chat} (h : userChats.get u = some c) :
    (requestGemini env userChats userID prompt input cfg).userChats.get u = some c := by
  have hk := lookupOrCreate_keeps env userChats userID "gemini-1.5-flash" prompt h
  by_cases hb : TrimSpace prompt = "" ∨ TrimSpace input = ""
  · rw [requestGemini_of_blank _ _ _ _ _ _ hb]; exact h
  · cases hc : env.newClient cfg.apiKey with
    | some err => rw [requestGemini_of_client_error _ _ _ _ _ _ _ hb hc]; exact h
    | none =>
      cases hl : (lookupOrCreate env userChats userID "gemini-1.5-flash" prompt).chat with
      | error err => rw [requestGemini_of_chat_error _ _ _ _ _ _ _ hb hc hl]; exact hk
      | ok chat =>
        cases hs : env.sendMessage chat input with
        | error err => rw [requestGemini_of_send_error _ _ _ _ _ _ _ _ hb hc hl hs]; exact hk
        | ok r =>
          cases r with
          | none => rw [requestGemini_of_nil_response _ _ _ _ _ _ _ hb hc hl hs]; exact hk
          | some text => rw [requestGemini_of_response _ _ _ _ _ _ _ _ hb hc hl hs]; exact hk

/-! ## Delivery -/

theorem sendPrivateMsg_of_bad_url (env : Env) (userID : Int) (text : String) (cfg : Config)
    (msgID : String) (err : Err) (h : env.newRequest (cfg.url ++ "/send_private_msg") = some err) :
    sendPrivateMsg env userID text cfg msgID = ⟨some err, []⟩ := by
  simp only [sendPrivateMsg, h]

theorem sendPrivateMsg_of_network_error (env : Env) (userID : Int) (text : String) (cfg : Config)
    (msgID : String) (err : Err) (h : env.newRequest (cfg.url ++ "/send_private_msg") = none)
    (hd : env.doRequest ⟨"POST", cfg.url ++ "/send_private_msg", "application/json",
      "Bearer " ++ cfg.urlToken, ⟨userID, text⟩⟩ = .error err) :
    sendPrivateMsg env userID text cfg msgID =
      ⟨some err, [.httpDo ⟨"POST", cfg.url ++ "/send_private_msg", "application/json",
        "Bearer " ++ cfg.urlToken, ⟨userID, text⟩⟩]⟩ := by
  simp only [sendPrivateMsg, h, hd]

theorem sendPrivateMsg_of_status (env : Env) (userID : Int) (text : String) (cfg : Config)
    (msgID : String) (statusCode : Nat)
    (h : env.newRequest (cfg.url ++ "/send_private_msg") = none)
    (hd : env.doRequest ⟨"POST", cfg.url ++ "/send_private_msg", "application/json",
      "Bearer " ++ cfg.urlToken, ⟨userID, text⟩⟩ = .ok statusCode) :
    sendPrivateMsg env userID text cfg msgID =
      if statusCode ≠ 200 then
        ⟨none, [.httpDo ⟨"POST", cfg.url ++ "/send_private_msg", "application/json",
          "Bearer " ++ cfg.urlToken, ⟨userID, text⟩⟩]⟩
      else
        ⟨none, [.httpDo ⟨"POST", cfg.url ++ "/send_private_msg", "application/json",
          "Bearer " ++ cfg.urlToken, ⟨userID, text⟩⟩, .log (.sent userID text)]⟩ := by
  simp only [sendPrivateMsg, h, hd]

theorem sendPrivateMsg_trace (env : Env) (userID : Int) (text : String) (cfg : Config)
    (msgID : String) :
    backendSends (sendPrivateMsg env userID text cfg msgID).effects = [] ∧
      backendCalls (sendPrivateMsg env userID text cfg msgID).effects = [] ∧
      deliveries (sendPrivateMsg env userID text cfg msgID).effects =
        match env.newRequest (cfg.url ++ "/send_private_msg") with
        | some _ => []
        | none => [⟨"POST", cfg.url ++ "/send_private_msg", "application/json",
            "Bearer " ++ cfg.urlToken, ⟨userID, text⟩⟩] := by
  cases h : env.newRequest (cfg.url ++ "/send_private_msg") with
  | some err => rw [sendPrivateMsg_of_bad_url _ _ _ _ _ _ h]; exact ⟨rfl, rfl, rfl⟩
  | none =>
    cases hd : env.doRequest ⟨"POST", cfg.url ++ "/send_private_msg", "application/json",
      "Bearer " ++ cfg.urlToken, ⟨userID, text⟩⟩ with
    | error err => rw [sendPrivateMsg_of_network_error _ _ _ _ _ _ h hd]; exact ⟨rfl, rfl, rfl⟩
    | ok statusCode =>
      rw [sendPrivateMsg_of_status _ _ _ _ _ _ h hd]
      split <;> exact ⟨rfl, rfl, rfl⟩

/-! ## The handler -/

theorem handlePrivateMsg_of_empty (env : Env) (st : State) (msg : WSMessage) (prompt : String)
    (cfg : Config) (hnew : getMsgUniqueID msg ∉ st.processedMsgID) (hin : extractInput msg = "") :
    handlePrivateMsg env st msg prompt cfg =
      (⟨getMsgUniqueID msg :: st.processedMsgID, st.userChats⟩, [.log .emptySkip]) := by
  simp only [handlePrivateMsg, hnew, if_false, hin, if_true]

theorem handlePrivateMsg_of_gemini_error (env : Env) (st : State) (msg : WSMessage)
    (prompt : String) (cfg : Config) (err : Err)
    (hnew : getMsgUniqueID msg ∉ st.processedMsgID) (hin : extractInput msg ≠ "")
    (hg : (requestGemini env st.userChats msg.UserID prompt (extractInput msg) cfg).err =
      some err) :
    handlePrivateMsg env st msg prompt cfg =
      (⟨getMsgUniqueID msg :: st.processedMsgID,
          (requestGemini env st.userChats msg.UserID prompt (extractInput msg) cfg).userChats⟩,
        .log (.received msg.UserID (extractInput msg) (getMsgUniqueID msg)) ::
          (requestGemini env st.userChats msg.UserID prompt (extractInput msg) cfg).effects ++
          [.log (.geminiFailed err)]) := by
  simp only [handlePrivateMsg, hnew, if_false, hin, hg]

theorem handlePrivateMsg_of_reply (env : Env) (st : State) (msg : WSMessage)
    (prompt : String) (cfg : Config)
    (hnew : getMsgUniqueID msg ∉ st.processedMsgID) (hin : extractInput msg ≠ "")
    (hg : (requestGemini env st.userChats msg.UserID prompt (extractInput msg) cfg).err = none) :
    handlePrivateMsg env st msg prompt cfg =
      (⟨getMsgUniqueID msg :: st.processedMsgID,
          (requestGemini env st.userChats msg.UserID prompt (extractInput msg) cfg).userChats⟩,
        .log (.received msg.UserID (extractInput msg) (getMsgUniqueID msg)) ::
          (requestGemini env st.userChats msg.UserID prompt (extractInput msg) cfg).effects ++
          (sendPrivateMsg env msg.UserID
            (requestGemini env st.userChats msg.UserID prompt (extractInput msg) cfg).reply cfg
            (getMsgUniqueID msg)).effects ++
          match (sendPrivateMsg env msg.UserID
            (requestGemini env st.userChats msg.UserID prompt (extractInput msg) cfg).reply cfg
            (getMsgUniqueID msg)).err with
          | some err => [.log (.sendFailed err (getMsgUniqueID msg))]
          | none => []) := by
  simp only [handlePrivateMsg, hnew, if_false, hin, hg]
  split <;> simp_all

theorem requestGemini_userChats (env : Env) (userChats : Registry) (userID : Int)
    (prompt input : String) (cfg : Config) :
    (requestGemini env userChats userID prompt input cfg).userChats = userChats ∨
      (requestGemini env userChats userID prompt input cfg).userChats =
        (lookupOrCreate env userChats userID "gemini-1.5-flash" prompt).userChats := by
  by_cases hb : TrimSpace prompt = "" ∨ TrimSpace input = ""
  · rw [requestGemini_of_blank _ _ _ _ _ _ hb]; exact Or.inl rfl
  · cases hc : env.newClient cfg.apiKey with
    | some err => rw [requestGemini_of_client_error _ _ _ _ _ _ _ hb hc]; exact Or.inl rfl
    | none =>
      cases hl : (lookupOrCreate env userChats userID "gemini-1.5-flash" prompt).chat with
      | error err => rw [requestGemini_of_chat_error _ _ _ _ _ _ _ hb hc hl]; exact Or.inr rfl
      | ok chat =>
        cases hs : env.sendMessage chat input with
        | error err =>
          rw [requestGemini_of_send_error _ _ _ _ _ _ _ _ hb hc hl hs]; exact Or.inr rfl
        | ok r =>
          cases r with
          | none => rw [requestGemini_of_nil_response _ _ _ _ _ _ _ hb hc hl hs]; exact Or.inr rfl
          | some text =>
            rw [requestGemini_of_response _ _ _ _ _ _ _ _ hb hc hl hs]; exact Or.inr rfl

theorem requestGemini_keys_nodup (env : Env) (userChats : Registry) (userID : Int)
    (prompt input : String) (cfg : Config) (h : userChats.keys.Nodup) :
    (requestGemini env userChats userID prompt input cfg).userChats.keys.Nodup := by
  rcases requestGemini_userChats env userChats userID prompt input cfg with he | he
  · rw [he]; exact h
  · rw [he]; exact lookupOrCreate_keys_nodup _ _ _ _ _ h

theorem handlePrivateMsg_userChats (env : Env) (st : State) (msg : WSMessage) (prompt : String)
    (cfg : Config) :
    (handlePrivateMsg env st msg prompt cfg).1.userChats = st.userChats ∨
      (handlePrivateMsg env st msg prompt cfg).1.userChats =
        (requestGemini env st.userChats msg.UserID prompt (extractInput msg) cfg).userChats := by
  by_cases hdup : getMsgUniqueID msg ∈ st.processedMsgID
  · rw [handlePrivateMsg_of_mem _ _ _ _ _ hdup]; exact Or.inl rfl
  · by_cases hin : extractInput msg = ""
    · rw [handlePrivateMsg_of_empty _ _ _ _ _ hdup hin]; exact Or.inl rfl
    · cases hg : (requestGemini env st.userChats msg.UserID prompt (extractInput msg) cfg).err with
      | some err => rw [handlePrivateMsg_of_gemini_error _ _ _ _ _ _ hdup hin hg]; exact Or.inr rfl
      | none => rw [handlePrivateMsg_of_reply _ _ _ _ _ hdup hin hg]; exact Or.inr rfl

theorem handlePrivateMsg_keys_nodup (env : Env) (st : State) (msg : WSMessage) (prompt : String)
    (cfg : Config) (h : st.userChats.keys.Nodup) :
    (handlePrivateMsg env st msg prompt cfg).1.userChats.keys.Nodup := by
  rcases handlePrivateMsg_userChats env st msg prompt cfg with he | he
  · rw [he]; exact h
  · rw [he]; exact requestGemini_keys_nodup _ _ _ _ _ _ h

theorem handlePrivateMsg_keeps_chat (env : Env) (st : State) (msg : WSMessage) (prompt : String)
    (cfg : Config) {u : Int} {c : Chat} (h : st.userChats.get u = some c) :
    (handlePrivateMsg env st msg prompt cfg).1.userChats.get u = some c := by
  rcases handlePrivateMsg_userChats env st msg prompt cfg with he | he
  · rw [he]; exact h
  · rw [he]; exact requestGemini_keeps _ _ _ _ _ _ h

theorem handleAll_keeps_chat (prompt : String) (cfg : Config) (l : List (Env × WSMessage)) :
    ∀ (st : State) {u : Int} {c : Chat}, st.userChats.get u = some c →
      (handleAll prompt cfg st l).userChats.get u = some c := by
  induction l with
  | nil => intro st u c h; exact h
  | cons p rest ih =>
    intro st u c h
    obtain ⟨env, msg⟩ := p
    exact ih _ (handlePrivateMsg_keeps_chat env st msg prompt cfg h)

theorem handlePrivateMsg_trace (env : Env) (st : State) (msg : WSMessage) (prompt : String)
    (cfg : Config) (hnew : getMsgUniqueID msg ∉ st.processedMsgID) (hin : extractInput msg ≠ "") :
    ∃ rest,
      (handlePrivateMsg env st msg prompt cfg).2 =
        .log (.received msg.UserID (extractInput msg) (getMsgUniqueID msg)) ::
          (requestGemini env st.userChats msg.UserID prompt (extractInput msg) cfg).effects ++
          rest ∧
      backendSends rest = [] ∧ backendCalls rest = [] ∧
      ((requestGemini env st.userChats msg.UserID prompt (extractInput msg) cfg).err ≠ none →
        deliveries rest = []) ∧
      ((requestGemini env st.userChats msg.UserID prompt (extractInput msg) cfg).err = none →
        deliveries rest = deliveries (sendPrivateMsg env msg.UserID
          (requestGemini env st.userChats msg.UserID prompt (extractInput msg) cfg).reply cfg
          (getMsgUniqueID msg)).effects) := by
  cases hg : (requestGemini env st.userChats msg.UserID prompt (extractInput msg) cfg).err with
  | some err =>
    rw [handlePrivateMsg_of_gemini_error _ _ _ _ _ _ hnew hin hg]
    exact ⟨_, rfl, rfl, rfl, fun _ => rfl, fun h => by cases h⟩
  | none =>
    rw [handlePrivateMsg_of_reply _ _ _ _ _ hnew hin hg]
    have ht := sendPrivateMsg_trace env msg.UserID
      (requestGemini env st.userChats msg.UserID prompt (extractInput msg) cfg).reply cfg
      (getMsgUniqueID msg)
    refine ⟨_, by rw [List.append_assoc], ?_, ?_, fun h => absurd rfl h, fun _ => ?_⟩
    · rw [backendSends_append, ht.1]; split <;> rfl
    · rw [backendCalls_append, ht.2.1]; split <;> rfl
    · rw [deliveries_append]; split <;> simp [deliveries]

theorem handlePrivateMsg_userChats_of_input (env : Env) (st : State) (msg : WSMessage)
    (prompt : String) (cfg : Config) (hnew : getMsgUniqueID msg ∉ st.processedMsgID)
    (hin : extractInput msg ≠ "") :
    (handlePrivateMsg env st msg prompt cfg).1.userChats =
      (requestGemini env st.userChats msg.UserID prompt (extractInput msg) cfg).userChats := by
  cases hg : (requestGemini env st.userChats msg.UserID prompt (extractInput msg) cfg).err with
  | some err => rw [handlePrivateMsg_of_gemini_error _ _ _ _ _ _ hnew hin hg]
  | none => rw [handlePrivateMsg_of_reply _ _ _ _ _ hnew hin hg]

theorem handlePrivateMsg_sends (env : Env) (st : State) (msg : WSMessage) (prompt : String)
    (cfg : Config) :
    backendSends (handlePrivateMsg env st msg prompt cfg).2 = [] ∨
      ∃ chat, (handlePrivateMsg env st msg prompt cfg).1.userChats.get msg.UserID = some chat ∧
        backendSends (handlePrivateMsg env st msg prompt cfg).2 = [(chat, extractInput msg)] := by
  by_cases hdup : getMsgUniqueID msg ∈ st.processedMsgID
  · rw [handlePrivateMsg_of_mem _ _ _ _ _ hdup]; exact Or.inl rfl
  · by_cases hin : extractInput msg = ""
    · rw [handlePrivateMsg_of_empty _ _ _ _ _ hdup hin]; exact Or.inl rfl
    · obtain ⟨rest, ht, hs, _⟩ := handlePrivateMsg_trace env st msg prompt cfg hdup hin
      have hb : backendSends (handlePrivateMsg env st msg prompt cfg).2 =
          backendSends
            (requestGemini env st.userChats msg.UserID prompt (extractInput msg) cfg).effects := by
        rw [ht, List.cons_append]
        show backendSends (_ ++ rest) = _
        rw [backendSends_append, hs, List.append_nil]
      rcases requestGemini_sends env st.userChats msg.UserID prompt (extractInput msg) cfg with
        h0 | ⟨chat, hl, hu, h1⟩
      · left; rw [hb, h0]
      · right
        refine ⟨chat, ?_, by rw [hb, h1]⟩
        rw [handlePrivateMsg_userChats_of_input _ _ _ _ _ hdup hin, hu]
        exact lookupOrCreate_registers env st.userChats msg.UserID "gemini-1.5-flash" prompt hl

theorem run_keys_nodup (prompt : String) (cfg : Config) (steps : List Step) :
    ∀ s : System, s.state.userChats.keys.Nodup →
      (run prompt cfg s steps).state.userChats.keys.Nodup := by
  induction steps with
  | nil => intro s h; exact h
  | cons t rest ih =>
    intro s h
    have hrun : run prompt cfg s (t :: rest) = run prompt cfg (step prompt cfg s t) rest := rfl
    rw [hrun]
    apply ih
    cases t with
    | frame f => exact h
    | work workerID env =>
      cases hq : s.messageQueue with
      | nil => simp only [step, hq]; exact h
      | cons msg tail =>
        simp only [step, hq]
        exact handlePrivateMsg_keys_nodup env s.state msg prompt cfg h

/-- C5: the look-up-or-create step of `requestGemini` keeps `userChats` a map
with at most one handle per user_id (no key occurs twice, in every state the
process reaches) and never replaces or removes an entry. With a handle for
userID in the map, it creates no conversation, returns that handle and leaves
the map as it is. With none and a successful creation, it stores the created
handle. With none and a failed creation, it leaves the map as it is. Once a
step for userID has returned a handle, every later step for userID, whatever
steps of other callers come in between, returns that same handle, creates
nothing and leaves the map as it is. So of two events from one user_id, handled
one after the other in either order and with other events in between, every
message is sent through the same handle. -/
theorem lookupOrCreate_session_affinity :
    (∀ (env : Env) (userChats : Registry) (userID : Int) (model prompt : String),
        userChats.keys.Nodup →
        (lookupOrCreate env userChats userID model prompt).userChats.keys.Nodup) ∧
      (∀ (prompt : String) (cfg : Config) (steps : List Step),
        (run prompt cfg initial steps).state.userChats.keys.Nodup) ∧
      (∀ (env : Env) (userChats : Registry) (userID : Int) (model prompt : String) (u : Int)
          (c : Chat), userChats.get u = some c →
        (lookupOrCreate env userChats userID model prompt).userChats.get u = some c) ∧
      (∀ (env : Env) (userChats : Registry) (userID : Int) (model prompt : String) (c : Chat),
        userChats.get userID = some c →
        lookupOrCreate env userChats userID model prompt = ⟨userChats, .ok c, []⟩) ∧
      (∀ (env : Env) (userChats : Registry) (userID : Int) (model prompt : String) (c : Chat),
        userChats.get userID = none → env.createChat model prompt = .ok c →
        lookupOrCreate env userChats userID model prompt =
          ⟨(userID, c) :: userChats, .ok c, [.createChat model prompt]⟩) ∧
      (∀ (env : Env) (userChats : Registry) (userID : Int) (model prompt : String) (err : Err),
        userChats.get userID = none → env.createChat model prompt = .error err →
        lookupOrCreate env userChats userID model prompt =
          ⟨userChats, .error err, [.createChat model prompt, .log (.chatFailed err)]⟩) ∧
      (∀ (env : Env) (userChats : Registry) (userID : Int) (model prompt : String) (c : Chat),
        (lookupOrCreate env userChats userID model prompt).chat = .ok c →
        ∀ (others : List (Env × Int × String × String)) (env2 : Env) (model2 prompt2 : String),
          lookupOrCreate env2
              (lookupAll (lookupOrCreate env userChats userID model prompt).userChats others)
              userID model2 prompt2 =
            ⟨lookupAll (lookupOrCreate env userChats userID model prompt).userChats others,
              .ok c, []⟩) ∧
      (∀ (prompt : String) (cfg : Config) (st : State) (env1 env2 : Env) (e1 e2 : WSMessage)
          (between : List (Env × WSMessage)), e1.UserID = e2.UserID →
        ∀ s1 ∈ backendSends (handlePrivateMsg env1 st e1 prompt cfg).2,
        ∀ s2 ∈ backendSends (handlePrivateMsg env2
            (handleAll prompt cfg (handlePrivateMsg env1 st e1 prompt cfg).1 between)
            e2 prompt cfg).2,
          s1.1 = s2.1) := by
  refine ⟨lookupOrCreate_keys_nodup, ?_, ?_, lookupOrCreate_of_some, lookupOrCreate_of_created,
    lookupOrCreate_of_failed, ?_, ?_⟩
  · intro prompt cfg steps
    exact run_keys_nodup prompt cfg steps initial List.nodup_nil
  · intro env userChats userID model prompt u c h
    exact lookupOrCreate_keeps env userChats userID model prompt h
  · intro env userChats userID model prompt c h others env2 model2 prompt2
    exact lookupOrCreate_of_some _ _ _ _ _ _
      (lookupAll_keeps others _ (lookupOrCreate_registers env userChats userID model prompt h))
  · intro prompt cfg st env1 env2 e1 e2 between hu s1 h1 s2 h2
    rcases handlePrivateMsg_sends env1 st e1 prompt cfg with h0 | ⟨c1, hc1, hs1⟩
    · rw [h0] at h1; cases h1
    · rcases handlePrivateMsg_sends env2
          (handleAll prompt cfg (handlePrivateMsg env1 st e1 prompt cfg).1 between)
          e2 prompt cfg with h0 | ⟨c2, hc2, hs2⟩
      · rw [h0] at h2; cases h2
      · rw [hs1] at h1
        rw [hs2] at h2
        rw [List.mem_singleton.1 h1, List.mem_singleton.1 h2]
        have hk := handlePrivateMsg_keeps_chat env2
          (handleAll prompt cfg (handlePrivateMsg env1 st e1 prompt cfg).1 between) e2 prompt cfg
          (handleAll_keeps_chat prompt cfg between _ hc1)
        rw [hu, hc2] at hk
        exact (Option.some.inj hk).symm

theorem lookupOrCreate_session_affinity_witness :
    lookupOrCreate (scenarioEnv 200) [(42, 3)] 42 "gemini-1.5-flash" "p" =
        ⟨[(42, 3)], .ok 3, []⟩ ∧
      lookupOrCreate (scenarioEnv 200) [(41, 3)] 42 "gemini-1.5-flash" "p" =
        ⟨[(42, 7), (41, 3)], .ok 7, [.createChat "gemini-1.5-flash" "p"]⟩ :=
  ⟨lookupOrCreate_session_affinity.2.2.2.1 (scenarioEnv 200) [(42, 3)] 42 "gemini-1.5-flash" "p"
      3 (by decide),
    lookupOrCreate_session_affinity.2.2.2.2.1 (scenarioEnv 200) [(41, 3)] 42 "gemini-1.5-flash"
      "p" 7 (by decide) rfl⟩


/-! ## Blank text -/

theorem forall_mem_dropWhile_iff (p : Char → Bool) (l : List Char) :
    (∀ c ∈ l.dropWhile p, p c = true) ↔ ∀ c ∈ l, p c = true := by
  induction l with
  | nil => simp
  | cons a rest ih =>
    by_cases ha : p a = true
    · rw [List.dropWhile_cons_of_pos ha, ih]
      simp [ha]
    · rw [List.dropWhile_cons_of_neg ha]

theorem TrimSpace_eq_empty_iff (s : String) :
    TrimSpace s = "" ↔ ∀ c ∈ s.data, isSpace c = true := by
  unfold TrimSpace
  rw [← forall_mem_dropWhile_iff isSpace s.data]
  constructor
  · intro h
    have h1 : ((s.data.dropWhile isSpace).reverse.dropWhile isSpace).reverse = [] :=
      congrArg String.data h
    rw [List.reverse_eq_nil_iff, List.dropWhile_eq_nil_iff] at h1
    intro c hc
    exact h1 c (List.mem_reverse.2 hc)
  · intro h
    have h1 : ((s.data.dropWhile isSpace).reverse.dropWhile isSpace).reverse = [] := by
      rw [List.reverse_eq_nil_iff, List.dropWhile_eq_nil_iff]
      intro c hc
      exact h c (List.mem_reverse.1 hc)
    rw [h1]

theorem extractInput_of_raw (msg : WSMessage) (h : msg.RawMessage ≠ "") :
    extractInput msg = msg.RawMessage := by
  simp only [extractInput, h, if_false]

theorem handlePrivateMsg_of_blank (env : Env) (st : State) (msg : WSMessage) (prompt : String)
    (cfg : Config) (hb : TrimSpace prompt = "" ∨ TrimSpace (extractInput msg) = "") :
    deliveries (handlePrivateMsg env st msg prompt cfg).2 = [] ∧
      backendCalls (handlePrivateMsg env st msg prompt cfg).2 = [] ∧
      (handlePrivateMsg env st msg prompt cfg).1.userChats = st.userChats := by
  by_cases hdup : getMsgUniqueID msg ∈ st.processedMsgID
  · rw [handlePrivateMsg_of_mem _ _ _ _ _ hdup]; exact ⟨rfl, rfl, rfl⟩
  · by_cases hin : extractInput msg = ""
    · rw [handlePrivateMsg_of_empty _ _ _ _ _ hdup hin]; exact ⟨rfl, rfl, rfl⟩
    · have hg := requestGemini_of_blank env st.userChats msg.UserID prompt (extractInput msg) cfg hb
      rw [handlePrivateMsg_of_gemini_error env st msg prompt cfg "prompt 或 input 不能为空" hdup hin
        (by rw [hg]), hg]
      exact ⟨rfl, rfl, rfl⟩

/-- C9: when the prompt or the input is empty or only white space
(`strings.TrimSpace` gives ""; this is so exactly when every character is a
space of `unicode.IsSpace`), `requestGemini` returns an error and an empty
reply, its trace is one log record (no client, no conversation, no message)
and the session registry is the one it was given. So `handlePrivateMsg` on an
event whose extracted text is only white space, or with such a prompt, makes
no delivery and no backend call and leaves the registry as it was. -/
theorem requestGemini_rejects_blank :
    (∀ (env : Env) (userChats : Registry) (userID : Int) (prompt input : String) (cfg : Config),
        TrimSpace prompt = "" ∨ TrimSpace input = "" →
        requestGemini env userChats userID prompt input cfg =
          ⟨userChats, "", some "prompt 或 input 不能为空", [.log .blankPromptOrInput]⟩) ∧
      (∀ s : String, TrimSpace s = "" ↔ ∀ c ∈ s.data, isSpace c = true) ∧
      (∀ (env : Env) (st : State) (msg : WSMessage) (prompt : String) (cfg : Config),
        TrimSpace prompt = "" ∨ TrimSpace (extractInput msg) = "" →
        deliveries (handlePrivateMsg env st msg prompt cfg).2 = [] ∧
          backendCalls (handlePrivateMsg env st msg prompt cfg).2 = [] ∧
          (handlePrivateMsg env st msg prompt cfg).1.userChats = st.userChats) :=
  ⟨requestGemini_of_blank, TrimSpace_eq_empty_iff, handlePrivateMsg_of_blank⟩

theorem requestGemini_rejects_blank_witness :
    requestGemini (scenarioEnv 200) [(41, 3)] 42 defaultPrompt " \t\n" defaultConfig =
        ⟨[(41, 3)], "", some "prompt 或 input 不能为空", [.log .blankPromptOrInput]⟩ ∧
      deliveries (handlePrivateMsg (scenarioEnv 200) ⟨[], []⟩ blankEvent defaultPrompt
        defaultConfig).2 = [] :=
  ⟨requestGemini_rejects_blank.1 (scenarioEnv 200) [(41, 3)] 42 defaultPrompt " \t\n"
      defaultConfig (Or.inr (by decide)),
    (requestGemini_rejects_blank.2.2 (scenarioEnv 200) ⟨[], []⟩ blankEvent defaultPrompt
      defaultConfig (Or.inr (by decide))).1⟩

/-! ## Input extraction -/

/-- C6: for an accepted event, the text that `handlePrivateMsg` extracts is
raw_message when that is not empty, whatever segments and raw elements there
are; else the text of the first message segment when that is not empty; else
the content of the first raw element when that is not empty; else it is empty.
When the extracted text is not empty the trace is the receipt log of that
text, then the trace of `requestGemini` called with that text, then a rest
without backend call; every message sent to the backend carries that text.
When it is empty the trace is the one log record of the skip: `requestGemini`
is not called and no delivery is made. -/
theorem extractInput_precedence (env : Env) (st : State) (msg : WSMessage) (prompt : String)
    (cfg : Config) (hnew : getMsgUniqueID msg ∉ st.processedMsgID) :
    (msg.RawMessage ≠ "" → extractInput msg = msg.RawMessage) ∧
      (∀ m0 ms, msg.RawMessage = "" → msg.Message = m0 :: ms → m0.Data.Text ≠ "" →
        extractInput msg = m0.Data.Text) ∧
      (∀ r0 rs, msg.RawMessage = "" →
        (msg.Message = [] ∨ ∃ m0 ms, msg.Message = m0 :: ms ∧ m0.Data.Text = "") →
        msg.Raw.Elements = r0 :: rs → r0.TextElement.Content ≠ "" →
        extractInput msg = r0.TextElement.Content) ∧
      (msg.RawMessage = "" →
        (msg.Message = [] ∨ ∃ m0 ms, msg.Message = m0 :: ms ∧ m0.Data.Text = "") →
        (msg.Raw.Elements = [] ∨
          ∃ r0 rs, msg.Raw.Elements = r0 :: rs ∧ r0.TextElement.Content = "") →
        extractInput msg = "") ∧
      (extractInput msg ≠ "" → ∃ rest,
        (handlePrivateMsg env st msg prompt cfg).2 =
          .log (.received msg.UserID (extractInput msg) (getMsgUniqueID msg)) ::
            (requestGemini env st.userChats msg.UserID prompt (extractInput msg) cfg).effects ++
            rest ∧
        backendSends rest = [] ∧ backendCalls rest = []) ∧
      (∀ s ∈ backendSends (handlePrivateMsg env st msg prompt cfg).2, s.2 = extractInput msg) ∧
      (extractInput msg = "" →
        handlePrivateMsg env st msg prompt cfg =
          (⟨getMsgUniqueID msg :: st.processedMsgID, st.userChats⟩, [.log .emptySkip])) := by
  refine ⟨extractInput_of_raw msg, ?_, ?_, ?_, ?_, ?_, ?_⟩
  · intro m0 ms hr hm ht
    simp only [extractInput, hr, hm, if_true, ht, if_false]
  · intro r0 rs hr hm he hc
    rcases hm with hm | ⟨m0, ms, hm, ht⟩
    · simp only [extractInput, hr, hm, he, if_true]
    · simp only [extractInput, hr, hm, ht, he, if_true]
  · intro hr hm he
    rcases hm with hm | ⟨m0, ms, hm, ht⟩ <;> rcases he with he | ⟨r0, rs, he, hc⟩
    · simp only [extractInput, hr, hm, he, if_true]
    · simp only [extractInput, hr, hm, he, hc, if_true]
    · simp only [extractInput, hr, hm, ht, he, if_true]
    · simp only [extractInput, hr, hm, ht, he, hc, if_true]
  · intro hin
    obtain ⟨rest, ht, hs, hc, _⟩ := handlePrivateMsg_trace env st msg prompt cfg hnew hin
    exact ⟨rest, ht, hs, hc⟩
  · intro s hs
    rcases handlePrivateMsg_sends env st msg prompt cfg with h0 | ⟨chat, _, h1⟩
    · rw [h0] at hs; cases hs
    · rw [h1] at hs
      rw [List.mem_singleton.1 hs]
  · exact handlePrivateMsg_of_empty env st msg prompt cfg hnew

theorem extractInput_precedence_witness :
    extractInput segmentEvent = "from segment" ∧
      backendSends (handlePrivateMsg (scenarioEnv 200) ⟨[], []⟩ segmentEvent defaultPrompt
        defaultConfig).2 = [(7, "from segment")] :=
  ⟨(extractInput_precedence (scenarioEnv 200) ⟨[], []⟩ segmentEvent defaultPrompt defaultConfig
      (by decide)).2.1 ⟨"text", ⟨"from segment"⟩⟩ [] rfl rfl (by decide),
    by decide⟩

/-! ## End to end -/

theorem TrimSpace_empty : TrimSpace "" = "" := rfl

theorem handlePrivateMsg_of_backend_reply (env : Env) (st : State) (msg : WSMessage)
    (prompt : String) (cfg : Config) (chat : Chat) (r : Option String)
    (hnew : getMsgUniqueID msg ∉ st.processedMsgID)
    (hin : TrimSpace (extractInput msg) ≠ "") (hp : TrimSpace prompt ≠ "")
    (hclient : env.newClient cfg.apiKey = none)
    (hchat : (lookupOrCreate env st.userChats msg.UserID "gemini-1.5-flash" prompt).chat =
      .ok chat)
    (hreply : env.sendMessage chat (extractInput msg) = .ok r) :
    (requestGemini env st.userChats msg.UserID prompt (extractInput msg) cfg).err = none ∧
      (requestGemini env st.userChats msg.UserID prompt (extractInput msg) cfg).reply =
        r.getD "" ∧
      backendSends (handlePrivateMsg env st msg prompt cfg).2 = [(chat, extractInput msg)] ∧
      deliveries (handlePrivateMsg env st msg prompt cfg).2 =
        deliveries (sendPrivateMsg env msg.UserID (r.getD "") cfg (getMsgUniqueID msg)).effects := by
  have hb : ¬ (TrimSpace prompt = "" ∨ TrimSpace (extractInput msg) = "") := by
    rintro (h | h)
    · exact hp h
    · exact hin h
  have hne : extractInput msg ≠ "" := by
    intro h
    rw [h] at hin
    exact hin TrimSpace_empty
  have hg : (requestGemini env st.userChats msg.UserID prompt (extractInput msg) cfg).err = none ∧
      (requestGemini env st.userChats msg.UserID prompt (extractInput msg) cfg).reply =
        r.getD "" := by
    cases r with
    | none => rw [requestGemini_of_nil_response _ _ _ _ _ _ _ hb hclient hchat hreply]; exact ⟨rfl, rfl⟩
    | some text => rw [requestGemini_of_response _ _ _ _ _ _ _ _ hb hclient hchat hreply]; exact ⟨rfl, rfl⟩
  obtain ⟨rest, ht, hs, _, _, hd⟩ := handlePrivateMsg_trace env st msg prompt cfg hnew hne
  refine ⟨hg.1, hg.2, ?_, ?_⟩
  · rcases handlePrivateMsg_sends env st msg prompt cfg with h0 | ⟨c, hc, h1⟩
    · exfalso
      rw [ht, List.cons_append] at h0
      have h2 : backendSends
          ((requestGemini env st.userChats msg.UserID prompt (extractInput msg) cfg).effects ++
            rest) = [] := h0
      rw [backendSends_append, hs, List.append_nil] at h2
      rcases requestGemini_sends env st.userChats msg.UserID prompt (extractInput msg) cfg with
        h3 | ⟨c, _, _, h3⟩
      · cases r with
        | none =>
          rw [requestGemini_of_nil_response _ _ _ _ _ _ _ hb hclient hchat hreply] at h3
          simp [backendSends, backendSends_append] at h3
        | some text =>
          rw [requestGemini_of_response _ _ _ _ _ _ _ _ hb hclient hchat hreply] at h3
          simp [backendSends, backendSends_append] at h3
      · rw [h3] at h2; cases h2
    · rw [h1]
      rw [handlePrivateMsg_userChats_of_input _ _ _ _ _ hnew hne] at hc
      rcases requestGemini_sends env st.userChats msg.UserID prompt (extractInput msg) cfg with
        h3 | ⟨c2, hl, _, h3⟩
      · exfalso
        rw [ht, List.cons_append] at h1
        have h2 : backendSends
            ((requestGemini env st.userChats msg.UserID prompt (extractInput msg) cfg).effects ++
              rest) = [(c, extractInput msg)] := h1
        rw [backendSends_append, hs, List.append_nil, h3] at h2
        cases h2
      · rw [hchat] at hl
        cases hl
        rw [ht, List.cons_append] at h1
        have h2 : backendSends
            ((requestGemini env st.userChats msg.UserID prompt (extractInput msg) cfg).effects ++
              rest) = [(c, extractInput msg)] := h1
        rw [backendSends_append, hs, List.append_nil, h3] at h2
        exact h2.symm
  · rw [ht, List.cons_append]
    show deliveries (_ ++ rest) = _
    rw [deliveries_append, requestGemini_deliveries, List.nil_append, hd hg.1, hg.2]

/-- C2 (as amended): for every event with no group context, message_type
"private", a raw_message m that is not blank (`strings.TrimSpace` of it is not
empty) and a fingerprint not yet in the deduplication store, with a configured
prompt that is not blank, a backend that returns the reply r for the input m
(the client is created, the handle of the user is found or created, the send
answers r) and a base URL from which `http.NewRequest` builds a request: the
loop of `main` admits the event to an empty queue, and handling it sends m to
the backend once and makes exactly one delivery call, a POST to
base URL + "/send_private_msg" with the bearer token, whose body has the
user_id of the event and the message r. -/
theorem handlePrivateMsg_end_to_end (env : Env) (st : State) (msg : WSMessage) (prompt : String)
    (cfg : Config) (chat : Chat) (r : String)
    (hgroup : msg.GroupID = none) (htype : msg.MessageType = "private")
    (hm : TrimSpace msg.RawMessage ≠ "")
    (hnew : getMsgUniqueID msg ∉ st.processedMsgID)
    (hp : TrimSpace prompt ≠ "")
    (hclient : env.newClient cfg.apiKey = none)
    (hchat : (lookupOrCreate env st.userChats msg.UserID "gemini-1.5-flash" prompt).chat =
      .ok chat)
    (hreply : env.sendMessage chat msg.RawMessage = .ok (some r))
    (hurl : env.newRequest (cfg.url ++ "/send_private_msg") = none) :
    ingest [] (.event msg) = ([msg], []) ∧
      backendSends (handlePrivateMsg env st msg prompt cfg).2 = [(chat, msg.RawMessage)] ∧
      deliveries (handlePrivateMsg env st msg prompt cfg).2 =
        [⟨"POST", cfg.url ++ "/send_private_msg", "application/json", "Bearer " ++ cfg.urlToken,
          ⟨msg.UserID, r⟩⟩] := by
  have hraw : msg.RawMessage ≠ "" := by
    intro h
    rw [h] at hm
    exact hm TrimSpace_empty
  have hx : extractInput msg = msg.RawMessage := extractInput_of_raw msg hraw
  have h := handlePrivateMsg_of_backend_reply env st msg prompt cfg chat (some r) hnew
    (by rw [hx]; exact hm) hp hclient hchat (by rw [hx]; exact hreply)
  refine ⟨?_, ?_, ?_⟩
  · rw [ingest_admitted _ _ hgroup htype]
    rfl
  · rw [h.2.2.1, hx]
  · rw [h.2.2.2]
    show deliveries (sendPrivateMsg env msg.UserID r cfg (getMsgUniqueID msg)).effects = _
    rw [(sendPrivateMsg_trace env msg.UserID r cfg (getMsgUniqueID msg)).2.2, hurl]

theorem handlePrivateMsg_end_to_end_witness :
    deliveries (handlePrivateMsg (scenarioEnv 200) ⟨[], []⟩ scenarioEvent defaultPrompt
        defaultConfig).2 =
      [⟨"POST", "http://127.0.0.1:3000/send_private_msg", "application/json",
        "Bearer aaasssxxx", ⟨42, "hi there"⟩⟩] :=
  (handlePrivateMsg_end_to_end (scenarioEnv 200) ⟨[], []⟩ scenarioEvent defaultPrompt
    defaultConfig 7 "hi there" rfl rfl (by decide) (by decide) (by decide) rfl rfl rfl rfl).2.2

/-- C2 (as stated) fails: the event of the scenario with the raw_message " ",
which is not empty, with the default prompt and a backend that answers
"hi there" to every input, is admitted and handled without any delivery call
(`requestGemini` rejects the blank input); and the event of the scenario
itself, with a base URL that `http.NewRequest` rejects, is handled without any
delivery call. -/
theorem end_to_end_without_delivery :
    (blankEvent.GroupID = none ∧ blankEvent.MessageType = "private" ∧
        blankEvent.RawMessage ≠ "" ∧ TrimSpace defaultPrompt ≠ "" ∧
        getMsgUniqueID blankEvent ∉ ([] : List String) ∧
        deliveries (handlePrivateMsg (scenarioEnv 200) ⟨[], []⟩ blankEvent defaultPrompt
          defaultConfig).2 = []) ∧
      deliveries (handlePrivateMsg schemelessEnv ⟨[], []⟩ scenarioEvent defaultPrompt
        schemelessConfig).2 = [] := by
  decide

/-! ## Empty responses and failed deliveries -/

/-- C7: the code at a failing input: the backend answers the event of the
scenario with a response whose text is empty. `requestGemini` returns the empty
reply with a nil error, and `handlePrivateMsg`, which tests only the error,
calls `sendPrivateMsg`: the trace has one delivery call, a POST whose message
is "", followed by the log of a sent message. The claim says that no delivery
call is made. -/
theorem empty_reply_is_delivered :
    getMsgUniqueID scenarioEvent ∉ ([] : List String) ∧
      emptyTextEnv.sendMessage 7 "hello" = .ok (some "") ∧
      (requestGemini emptyTextEnv [] 42 defaultPrompt "hello" defaultConfig).reply = "" ∧
      (requestGemini emptyTextEnv [] 42 defaultPrompt "hello" defaultConfig).err = none ∧
      (handlePrivateMsg emptyTextEnv ⟨[], []⟩ scenarioEvent defaultPrompt defaultConfig).2 =
        [.log (.received 42 "hello" "1_42_hello_message_friend_1"),
          .newClient "gemini_api_here",
          .createChat "gemini-1.5-flash" defaultPrompt,
          .sendMessage 7 "hello",
          .httpDo ⟨"POST", "http://127.0.0.1:3000/send_private_msg", "application/json",
            "Bearer aaasssxxx", ⟨42, ""⟩⟩,
          .log (.sent 42 "")] ∧
      deliveries
          (handlePrivateMsg emptyTextEnv ⟨[], []⟩ scenarioEvent defaultPrompt defaultConfig).2 =
        [⟨"POST", "http://127.0.0.1:3000/send_private_msg", "application/json",
          "Bearer aaasssxxx", ⟨42, ""⟩⟩] := by
  refine ⟨by decide, rfl, by decide, by decide, by decide, by decide⟩

/-- C8: the code at a failing input: the delivery endpoint answers the request
of the scenario with status 500, and `sendPrivateMsg` returns a nil error, as
it does for status 200; `handlePrivateMsg` then logs no failure: its trace ends
with the request, without the record of a failed send. -/
theorem sendPrivateMsg_status_500_returns_nil :
    (sendPrivateMsg (scenarioEnv 500) 42 "hi there" defaultConfig
        "1_42_hello_message_friend_1").err = none ∧
      (sendPrivateMsg (scenarioEnv 200) 42 "hi there" defaultConfig
        "1_42_hello_message_friend_1").err = none ∧
      (handlePrivateMsg (scenarioEnv 500) ⟨[], []⟩ scenarioEvent defaultPrompt defaultConfig).2 =
        [.log (.received 42 "hello" "1_42_hello_message_friend_1"),
          .newClient "gemini_api_here",
          .createChat "gemini-1.5-flash" defaultPrompt,
          .sendMessage 7 "hello",
          .httpDo ⟨"POST", "http://127.0.0.1:3000/send_private_msg", "application/json",
            "Bearer aaasssxxx", ⟨42, "hi there"⟩⟩] := by
  refine ⟨rfl, rfl, by decide⟩

end GeminiToQQ
